import Mathlib

/-!
Verification development for the release-gating policy engine of this
repository (gate evaluator, snyk/sonar gating scripts, Jira exception
broker, gate table renderer).  Each Python function relevant to the
frozen claims is shallowly embedded as an executable Lean definition,
translated directly from the source files under `scripts/` and
`.github/actions/`.  Machine integers are modelled as `Int`/`Nat`,
Python floats as `Rat` (all threshold and metric values exercised by the
scripts are exact decimals), and Python strings as `String` with explicit
ASCII case/strip helpers mirroring the `str` methods used by the code.
-/

namespace Gating

/-! Part: Python string helpers (ASCII fragment used by the scripts) -/

/-- ASCII uppercase of one character, as used by Python `str.upper` on the
ASCII inputs these scripts handle. -/
def asciiUpperChar (c : Char) : Char :=
  if 'a' ≤ c && c ≤ 'z' then Char.ofNat (c.toNat - 32) else c

/-- ASCII lowercase of one character, as used by Python `str.lower` on the
ASCII inputs these scripts handle. -/
def asciiLowerChar (c : Char) : Char :=
  if 'A' ≤ c && c ≤ 'Z' then Char.ofNat (c.toNat + 32) else c

/-- Python `str.upper` (ASCII fragment). -/
def pyUpper (s : String) : String := ⟨s.data.map asciiUpperChar⟩

/-- Python `str.lower` (ASCII fragment). -/
def pyLower (s : String) : String := ⟨s.data.map asciiLowerChar⟩

/-- Characters stripped by Python `str.strip()`. -/
def isPySpace (c : Char) : Bool :=
  c == ' ' || c == '\t' || c == '\n' || c == '\r' || c == '\x0b' || c == '\x0c'

/-- Python `str.strip()` on ASCII whitespace. -/
def pyStrip (s : String) : String :=
  ⟨((s.data.dropWhile isPySpace).reverse.dropWhile isPySpace).reverse⟩

/-- Python truthiness of an optional string (`None` and `""` are falsy). -/
def pyTruthy (v : Option String) : Bool :=
  match v with
  | none => false
  | some s => !s.data.isEmpty

/-! Part: Association-list model of Python `dict` lookups

The scripts read JSON objects into Python dicts; `lookupStr m k` models
`m.get(k)`, returning the value of the first entry whose key is `k`. -/

def lookupStr {α : Type} : List (String × α) → String → Option α
  | [], _ => none
  | (k2, v) :: rest, k => if k2 == k then some v else lookupStr rest k

/-! Part: Threshold Resolver (`scripts/gate_evaluator.py`)

`compute_effective_snyk`: for every key of the default set the effective
value is `min(default, override)` (the override defaulting to the default
value when absent); keys present only in the override set are added
as-is.  Values are Python ints, modelled as `Int`. -/

/-- `ov = overrides.get(k, dv); effective[k] = min(int(dv), int(ov))`. -/
def snykMergeValue (overrides : List (String × Int)) (k : String) (dv : Int) : Int :=
  match lookupStr overrides k with
  | some ov => min dv ov
  | none => dv

def computeEffectiveSnyk (defaults overrides : List (String × Int)) :
    List (String × Int) :=
  (defaults.map (fun p => (p.1, snykMergeValue overrides p.1 p.2)))
  ++ overrides.filter (fun p => (lookupStr defaults p.1).isNone)

/-- `compute_effective_sonar` merge of one key: every merge uses
`max(float(dv), float(ov))` — uniformly for coverage, counts and rating
ordinals alike.  Values are Python floats, modelled as `Rat` (the script
only handles exact decimal threshold values). -/
def sonarMergeValue (overrides : List (String × Rat)) (k : String) (dv : Rat) : Rat :=
  match lookupStr overrides k with
  | some ov => max dv ov
  | none => dv

def computeEffectiveSonar (defaults overrides : List (String × Rat)) :
    List (String × Rat) :=
  (defaults.map (fun p => (p.1, sonarMergeValue overrides p.1 p.2)))
  ++ overrides.filter (fun p => (lookupStr defaults p.1).isNone)

/-! Part: Finding Normalizer (`scripts/gate_evaluator.py`, `load_snyk_issues_from_dir`)

One raw issue record, reduced to the three fields the normalizer probes:
`issue.get('severity')`, `issue.get('attributes', {}).get('severity')`,
`issue.get('level')`.  Each is `none` when the key is absent. -/

structure RawIssue where
  severity : Option String
  attrSeverity : Option String
  level : Option String

/-- Python `a or b` on optional strings: the first operand when it is
truthy, otherwise the second operand (whatever it is). -/
def pyOrStr (a b : Option String) : Option String :=
  if pyTruthy a then a else b

/-- `issue.get('severity') or issue.get('attributes', {}).get('severity') or issue.get('level')`. -/
def severityChain (i : RawIssue) : Option String :=
  pyOrStr i.severity (pyOrStr i.attrSeverity i.level)

/-- The severity stored by the normalizer:
`str(sev).lower() if sev is not None else 'unknown'`. -/
def normalizeSnykSeverity (i : RawIssue) : String :=
  match severityChain i with
  | none => "unknown"
  | some s => pyLower s

/-- Severity counters, one per key of the dict
`{'critical': 0, 'high': 0, 'medium': 0, 'low': 0}`. -/
structure Counts where
  critical : Nat
  high : Nat
  medium : Nat
  low : Nat
deriving DecidableEq, Repr

/-- `counts[s] += 1` when `s` is one of the four keys, else unchanged. -/
def bumpCount (c : Counts) (s : String) : Counts :=
  if s == "critical" then { c with critical := c.critical + 1 }
  else if s == "high" then { c with high := c.high + 1 }
  else if s == "medium" then { c with medium := c.medium + 1 }
  else if s == "low" then { c with low := c.low + 1 }
  else c

/-- `count_by_severity` of `scripts/gate_evaluator.py`: each issue's
`attributes.severity` string is skipped when falsy, lowercased, and
counted only when it is one of the four known severities.  The input is
the list of per-issue severity strings. -/
def countBySeverity : List String → Counts
  | [] => ⟨0, 0, 0, 0⟩
  | s :: rest =>
    let c := countBySeverity rest
    if s.data.isEmpty then c else bumpCount c (pyLower s)

/-- `counts.get(sev, 0)` on the four-key severity dict. -/
def countGet (c : Counts) (s : String) : Nat :=
  if s == "critical" then c.critical
  else if s == "high" then c.high
  else if s == "medium" then c.medium
  else if s == "low" then c.low
  else 0

/-! Part: Rule Evaluator — Snyk severity rules -/

structure SnykDetail where
  found : Nat
  allowed : Int
  ok : Bool
deriving DecidableEq, Repr

structure SnykEval where
  failed : Bool
  details : List (String × SnykDetail)
deriving DecidableEq, Repr

/-- The loop body of `evaluate_snyk` over a list of severity names:
`found = counts.get(sev, 0)`, `allowed = int(thr.get(sev, 0))`,
`ok = found <= allowed`, failure accumulated over all severities. -/
def snykStep (counts : Counts) (thr : List (String × Int)) : List String → SnykEval
  | [] => ⟨false, []⟩
  | sev :: rest =>
    let r := snykStep counts thr rest
    let found := countGet counts sev
    let allowed := (lookupStr thr sev).getD 0
    let ok := decide ((found : Int) ≤ allowed)
    ⟨(!ok) || r.failed, (sev, ⟨found, allowed, ok⟩) :: r.details⟩

/-- `evaluate_snyk(counts, effective_thresholds)` of
`scripts/gate_evaluator.py`, iterating `['critical','high','medium','low']`. -/
def evaluateSnyk (counts : Counts) (thr : List (String × Int)) : SnykEval :=
  snykStep counts thr ["critical", "high", "medium", "low"]

/-- `gate_results(counts, thresholds)` of
`.github/actions/snyk-code-analysis/snyk_gating.py`: iterates the four
counter entries in insertion order and fails when any
`count > thresholds.get(sev, 0)`. -/
def gateResults (counts : Counts) (thr : List (String × Int)) : Bool :=
  decide ((counts.critical : Int) > (lookupStr thr "critical").getD 0)
  || decide ((counts.high : Int) > (lookupStr thr "high").getD 0)
  || decide ((counts.medium : Int) > (lookupStr thr "medium").getD 0)
  || decide ((counts.low : Int) > (lookupStr thr "low").getD 0)

/-! Part: `convert_rating` (both script variants) -/

/-- The rating dict of `scripts/sonar_gating.py`. -/
def ratingMap : List (String × Nat) :=
  [("A", 1), ("1", 1), ("B", 2), ("2", 2), ("C", 3), ("3", 3),
   ("D", 4), ("4", 4), ("E", 5), ("5", 5)]

/-- `convert_rating(value)` of `scripts/sonar_gating.py`:
`mapping.get(str(value).upper(), 5)`. -/
def convertRating (value : String) : Nat :=
  (lookupStr ratingMap (pyUpper value)).getD 5

/-- The rating dict of `.github/actions/sonar-code-analysis/sonar_gating.py`,
which additionally maps the float spellings `"1.0"`..`"5.0"`. -/
def ratingMapAction : List (String × Nat) :=
  [("A", 1), ("1", 1), ("1.0", 1), ("B", 2), ("2", 2), ("2.0", 2),
   ("C", 3), ("3", 3), ("3.0", 3), ("D", 4), ("4", 4), ("4.0", 4),
   ("E", 5), ("5", 5), ("5.0", 5)]

/-- `convert_rating(value)` of the sonar action variant. -/
def convertRatingAction (value : String) : Nat :=
  (lookupStr ratingMapAction (pyUpper value)).getD 5

/-! Part: Rule Evaluator — Sonar composite rule (`scripts/gate_evaluator.py`) -/

/-- Is `needle` a prefix of `hay`? -/
def listStarts : List Char → List Char → Bool
  | [], _ => true
  | _ :: _, [] => false
  | a :: n, b :: h => a == b && listStarts n h

/-- Is `needle` a contiguous sublist of `hay`? -/
def listInfix (needle : List Char) : List Char → Bool
  | [] => needle.isEmpty
  | c :: rest => listStarts needle (c :: rest) || listInfix needle rest

/-- Python `needle in hay` on strings. -/
def strContains (hay needle : String) : Bool :=
  listInfix needle.data hay.data

/-- `SONAR_HIGHER_IS_BETTER`. -/
def sonarHigherIsBetter : List String :=
  ["coverage", "security_rating", "reliability_rating", "sqale_rating"]

/-- `SONAR_LOWER_IS_BETTER`. -/
def sonarLowerIsBetter : List String :=
  ["bugs", "vulnerabilities", "code_smells", "duplicated_lines_density",
   "security_hotspots"]

/-- The per-metric comparison of `evaluate_sonar`: `v >= a` for the
higher-is-better set, `v <= a` for the lower-is-better set, and for any
other metric a substring heuristic on the metric name. -/
def sonarOk (metric : String) (v a : Rat) : Bool :=
  if sonarHigherIsBetter.contains metric then decide (v ≥ a)
  else if sonarLowerIsBetter.contains metric then decide (v ≤ a)
  else if strContains metric "coverage" || strContains metric "rating" then
    decide (v ≥ a)
  else decide (v ≤ a)

structure SonarDetail where
  value : Option Rat
  allowed : Rat
  ok : Bool
deriving DecidableEq, Repr

structure SonarEval where
  failed : Bool
  details : List (String × SonarDetail)
deriving DecidableEq, Repr

/-- `evaluate_sonar(metrics, effective_thresholds)`: iterates the
effective thresholds; a metric missing from the report is recorded as
`ok=True` with reason `metric not reported` and never sets `failed`. -/
def evaluateSonar (metrics : List (String × Rat)) :
    List (String × Rat) → SonarEval
  | [] => ⟨false, []⟩
  | (metric, allowed) :: rest =>
    let r := evaluateSonar metrics rest
    match lookupStr metrics metric with
    | none => ⟨r.failed, (metric, ⟨none, allowed, true⟩) :: r.details⟩
    | some v =>
      let ok := sonarOk metric v allowed
      ⟨(!ok) || r.failed, (metric, ⟨some v, allowed, ok⟩) :: r.details⟩

/-! Part: Decision Composer of `scripts/gate_evaluator.py` (`main`)

`final_failed = snyk_eval['failed'] or sonar_eval['failed']`;
`final_decision = 'FAIL' if final_failed else 'PASS'`; the script then
always terminates with `sys.exit( 0)` (its own comment announces
"exit code: 1 if fail, otherwise 0").  The returned pair is
`(final_decision, exit_code)`. -/
def gateEvaluatorMain (counts : Counts) (effSnyk : List (String × Int))
    (metrics : List (String × Rat)) (effSonar : List (String × Rat)) :
    String × Nat :=
  let snykEval := evaluateSnyk counts effSnyk
  let sonarEval := evaluateSonar metrics effSonar
  let finalFailed := snykEval.failed || sonarEval.failed
  let finalDecision := if finalFailed then "FAIL" else "PASS"
  (finalDecision, 0)

/-! Part: Gate catalog (`scripts/render_gate_table.py`, `GATE_INFO`) -/

structure GateMeta where
  title : String
  category : String
  enforcing : String
  source : String
  visible : String
deriving DecidableEq, Repr

def GATE_INFO : List (String × GateMeta) :=
  [("gatr-01", ⟨"High Vulnerability", "Security", "NON_ENFORCING", "Snyk", "Yes"⟩),
   ("gatr-02", ⟨"Medium Vulnerability", "Security", "NON_ENFORCING", "Snyk", "Yes"⟩),
   ("gatr-03", ⟨"Critical Vulnerability", "Security", "NON_ENFORCING", "Snyk", "Yes"⟩),
   ("gatr-07", ⟨"Developer Thresholds", "Quality", "NON_ENFORCING", "SonarQube", "Yes"⟩),
   ("gatr-08", ⟨"Code Quality", "Quality", "ENFORCING", "SonarQube", "Yes"⟩),
   ("gatr-09", ⟨"Approved Sonar Params", "Quality", "ENFORCING", "GitHub Actions", "No"⟩),
   ("gatr-10", ⟨"Express Lane Quality", "Quality", "NON_ENFORCING", "SonarQube", "Yes"⟩),
   ("gatr-14", ⟨"Release Branch", "Governance", "ENFORCING", "GitHub Actions", "No"⟩)]

/-- The enforcing column of a rule's catalog entry (`"Unknown"` when the
rule id is not in the catalog, mirroring the renderer's fallback). -/
def gateEnforcing (gid : String) : String :=
  match lookupStr GATE_INFO gid with
  | some m => m.enforcing
  | none => "Unknown"

/-! Part: Branch-policy rule (`scripts/sonar_gating.py`, `evaluate_gatr_14`) -/

/-- `re.match(r"^main$", branch)`: in Python `$` also matches just before
one trailing newline. -/
def matchMainRe (branch : String) : Bool :=
  branch == "main" || branch == "main\n"

/-- `.*$` of `re.match(r"^release\/.*$", branch)` applied to the residue
after `release/`: any run of non-newline characters, optionally followed
by one final newline. -/
def dotStarDollar : List Char → Bool
  | [] => true
  | ['\n'] => true
  | c :: cs => decide (c ≠ '\n') && dotStarDollar cs

/-- Consume the literal pattern characters off the front of the input. -/
def stripPre : List Char → List Char → Option (List Char)
  | [], rest => some rest
  | _ :: _, [] => none
  | p :: ps, c :: cs => if p == c then stripPre ps cs else none

/-- `re.match(r"^release\/.*$", branch)`. -/
def matchReleaseRe (branch : String) : Bool :=
  match stripPre "release/".data branch.data with
  | some rest => dotStarDollar rest
  | none => false

/-- `any(re.match(p, branch) for p in allowed)`. -/
def branchAllowed (branch : String) : Bool :=
  matchMainRe branch || matchReleaseRe branch

/-- `evaluate_gatr_14(branch, environment)`: outside the protected
environments `("UAT", "PROD")` the gate always passes; inside them it
fails unless the branch matches `^main$` or `^release\/.*$`.  Only the
resulting status string is modelled. -/
def evaluateGatr14 (branch environment : String) : String :=
  if !(environment == "UAT" || environment == "PROD") then "PASS"
  else if branchAllowed branch then "PASS"
  else "FAIL"

/-! Part: Sonar action variant (`.github/actions/sonar-code-analysis/sonar_gating.py`) -/

/-- `extract_metric(data, metric_name)`: the value of the first measure
with the requested metric name, defaulting to `"0"` when the metric is
absent from the response.  Measures are `(metric, value)` pairs. -/
def extractMetric (measures : List (String × String)) (name : String) : String :=
  match lookupStr measures name with
  | some v => v
  | none => "0"

def digitVal (c : Char) : Nat := c.toNat - 48

def digitsVal (l : List Char) : Nat :=
  l.foldl (fun a c => a * 10 + digitVal c) 0

def allDigits (l : List Char) : Bool := l.all Char.isDigit

/-- Plain decimal literal accepted by Python `float(...)` (the only float
spellings these scripts ever feed it): optional sign, then digits with at
most one decimal point and at least one digit overall; the value
`sign * (intpart.fracpart)` is the exact rational
`sign * digits(intpart ++ fracpart) / 10 ^ |fracpart|`.  Exponent, `inf`
and `nan` spellings are outside the fragment exercised by the scripts. -/
def parseDecimal (s : String) : Option Rat :=
  let cs := (pyStrip s).data
  let signed : Int × List Char :=
    match cs with
    | '-' :: rest => (-1, rest)
    | '+' :: rest => (1, rest)
    | _ => (1, cs)
  let sign := signed.1
  let body := signed.2
  let ip := body.takeWhile (fun c => c != '.')
  let rest := body.dropWhile (fun c => c != '.')
  match rest with
  | [] =>
    if allDigits ip && !ip.isEmpty then some (mkRat (sign * (digitsVal ip : Int)) 1)
    else none
  | _ :: fp =>
    if allDigits ip && allDigits fp && !(ip.isEmpty && fp.isEmpty) then
      some (mkRat (sign * (digitsVal (ip ++ fp) : Int)) (10 ^ fp.length))
    else none

/-- The local `to_float` of `compare_metrics`: `float(v)` with fallback
`0.0` on a parse error. -/
def toFloat (s : String) : Rat :=
  (parseDecimal s).getD 0

/-- Python `int(float)`: truncation toward zero. -/
def pyTrunc (q : Rat) : Int := q.num.tdiv (q.den : Int)

/-- A JSON threshold value as read from the thresholds file: a number or
a string (rating letters). -/
inductive JVal where
  | jnum (q : Rat)
  | jstr (s : String)
deriving DecidableEq, Repr

/-- Python `str(value)` on a threshold value.  Integral numbers print as
their integer numeral; for the rating lookups that is the only observable
spelling (both `"1"` and `"1.0"` map to the same ordinal in the action's
rating dict, and any non-integral spelling falls to the default 5). -/
def pyStrJVal (v : JVal) : String :=
  match v with
  | .jstr s => s
  | .jnum q => toString q

/-- `thresholds.get(k, default)` for a numeric comparison.  A string
value for a numeric threshold would raise a `TypeError` in the Python
comparison and is mapped to the default here; no theorem instantiates
that case. -/
def getNumTh (th : List (String × JVal)) (k : String) (dflt : Rat) : Rat :=
  match lookupStr th k with
  | some (.jnum q) => q
  | some (.jstr _) => dflt
  | none => dflt

/-- `convert_rating(thresholds.get(k, "E"))` of the action variant. -/
def getRatingTh (th : List (String × JVal)) (k : String) : Nat :=
  match lookupStr th k with
  | some v => convertRatingAction (pyStrJVal v)
  | none => convertRatingAction "E"

/-- The metrics dict built by the action's `main` before gating:
raw value strings for the six numeric metrics, `convert_rating` ordinals
for the three ratings. -/
structure SonarMetricsDict where
  bugs : String
  vulnerabilities : String
  securityHotspots : String
  codeSmells : String
  coverage : String
  duplicatedLinesDensity : String
  securityRating : Nat
  reliabilityRating : Nat
  sqaleRating : Nat
deriving DecidableEq, Repr

/-- The dict construction in the action's `main`, from the measures of
the metrics response. -/
def buildMetrics (measures : List (String × String)) : SonarMetricsDict :=
  { bugs := extractMetric measures "bugs"
    vulnerabilities := extractMetric measures "vulnerabilities"
    securityHotspots := extractMetric measures "security_hotspots"
    codeSmells := extractMetric measures "code_smells"
    coverage := extractMetric measures "coverage"
    duplicatedLinesDensity := extractMetric measures "duplicated_lines_density"
    securityRating := convertRatingAction (extractMetric measures "security_rating")
    reliabilityRating := convertRatingAction (extractMetric measures "reliability_rating")
    sqaleRating := convertRatingAction (extractMetric measures "sqale_rating") }

/-- `compare_metrics(metrics, thresholds, quality_status, ...)` of the
action variant, reduced to its returned exit code: `2` when any fail
reason accumulates, else `0`. -/
def compareMetrics (m : SonarMetricsDict) (thresholds : List (String × JVal))
    (qualityStatus : String) : Nat :=
  let bugs := pyTrunc (toFloat m.bugs)
  let vulns := pyTrunc (toFloat m.vulnerabilities)
  let hotspots := pyTrunc (toFloat m.securityHotspots)
  let smells := pyTrunc (toFloat m.codeSmells)
  let coverage := toFloat m.coverage
  let duplicated := toFloat m.duplicatedLinesDensity
  let rating := m.securityRating
  let reliability := m.reliabilityRating
  let maintainability := m.sqaleRating
  let minCoverage := getNumTh thresholds "coverage" 0
  let maxBugs := getNumTh thresholds "bugs" 0
  let maxVulns := getNumTh thresholds "vulnerabilities" 0
  let maxHotspots := getNumTh thresholds "security_hotspots" 0
  let maxSmells := getNumTh thresholds "code_smells" 0
  let maxDup := getNumTh thresholds "duplicated_lines_density" 100
  let minRating := getRatingTh thresholds "security_rating"
  let minReliability := getRatingTh thresholds "reliability_rating"
  let minMaintainability := getRatingTh thresholds "sqale_rating"
  let anyFail :=
    (qualityStatus == "ERROR")
    || decide (coverage < minCoverage)
    || decide ((bugs : Rat) > maxBugs)
    || decide ((vulns : Rat) > maxVulns)
    || decide ((hotspots : Rat) > maxHotspots)
    || decide ((smells : Rat) > maxSmells)
    || decide (duplicated > maxDup)
    || decide (rating > minRating)
    || decide (reliability > minReliability)
    || decide (maintainability > minMaintainability)
  if anyFail then 2 else 0

/-! Part: Exception Broker (`scripts/sonar_gating.py`, `evaluate_jira_exception`)

Calendar dates as produced by
`datetime.strptime(expiry_str[:10], "%Y-%m-%d").date()`; `today` is
`datetime.utcnow().date()`, passed in as a parameter. -/

structure PyDate where
  year : Nat
  month : Nat
  day : Nat
deriving DecidableEq, Repr

/-- Lexicographic date key; months and days are below 100, so the
numeric order of keys is Python's `datetime.date` order. -/
def PyDate.toKey (d : PyDate) : Nat := d.year * 10000 + d.month * 100 + d.day

def isLeapYear (y : Nat) : Bool :=
  (y % 4 == 0 && y % 100 != 0) || (y % 400 == 0)

def daysInMonth (y m : Nat) : Nat :=
  if m == 2 then (if isLeapYear y then 29 else 28)
  else if m == 4 || m == 6 || m == 9 || m == 11 then 30
  else 31

/-- One or two leading digits (the CPython `_strptime` patterns for `%m`
and `%d` combined with the mandatory following separator / end of input
admit exactly the greedy read). -/
def parseTwoDigits : List Char → Option (Nat × List Char)
  | a :: b :: r =>
    if a.isDigit && b.isDigit then some (10 * digitVal a + digitVal b, r)
    else if a.isDigit then some (digitVal a, b :: r)
    else none
  | [a] => if a.isDigit then some (digitVal a, []) else none
  | [] => none

/-- `datetime.strptime(s[:10], "%Y-%m-%d").date()`: exactly four year
digits, one or two month and day digits, the whole (truncated) string
consumed, and the usual calendar validation (month 1..12, day within the
month, year at least 1). -/
def parseDate10 (s : String) : Option PyDate :=
  match s.data.take 10 with
  | y1 :: y2 :: y3 :: y4 :: '-' :: rest =>
    if y1.isDigit && y2.isDigit && y3.isDigit && y4.isDigit then
      let y := 1000 * digitVal y1 + 100 * digitVal y2 + 10 * digitVal y3 + digitVal y4
      match parseTwoDigits rest with
      | some (m, '-' :: rest2) =>
        (match parseTwoDigits rest2 with
         | some (d, []) =>
           if 1 ≤ y && 1 ≤ m && m ≤ 12 && 1 ≤ d && d ≤ daysInMonth y m then
             some ⟨y, m, d⟩
           else none
         | _ => none)
      | _ => none
    else none
  | _ => none

/-- `evaluate_jira_exception`, validation part.  The HTTP call and its
error branches precede this logic in the source and return status
`ERROR` only for transport or Jira errors; the ticket validation below
never does.  `fields` is the normalized custom-field extraction
(`_extract_custom_value` composed with `fields.get`), as a lookup from
custom-field id to optional string; note that the gate-id and
application-id checks read the same custom field `customfield_10109`.
Returns the resulting status string. -/
def evaluateJiraException (projectKey : Option String)
    (fields : String → Option String) (gateId appId : String)
    (today : PyDate) : String :=
  if !(pyTruthy projectKey) || !(pyUpper (projectKey.getD "") == "GATES") then
    "FAIL"
  else if !(pyTruthy (fields "customfield_10109"))
      || !(pyStrip ((fields "customfield_10109").getD "") == pyStrip gateId) then
    "FAIL"
  else if !(pyTruthy (fields "customfield_10109"))
      || !(pyStrip ((fields "customfield_10109").getD "") == pyStrip appId) then
    "FAIL"
  else if !(pyTruthy (fields "customfield_10106"))
      || !(pyUpper ((fields "customfield_10106").getD "") == "DECISION MADE") then
    "FAIL"
  else if !(pyTruthy (fields "customfield_10110"))
      || !(pyLower (pyStrip ((fields "customfield_10110").getD "")) == "approved") then
    "FAIL"
  else if !(pyTruthy (fields "customfield_10105")) then "FAIL"
  else
    match parseDate10 ((fields "customfield_10105").getD "") with
    | none => "FAIL"
    | some expiry =>
      if expiry.toKey < today.toKey then "FAIL" else "PASS_WITH_EXCEPTION"

/-! The five ticket predicates of the waiver protocol, each phrased as the
meaning of one validation step. -/

/-- The ticket's project key is `GATES` (case-insensitively). -/
def projMatches (projectKey : Option String) : Bool :=
  pyTruthy projectKey && (pyUpper (projectKey.getD "") == "GATES")

/-- The gate-id custom field is present, non-empty, and equals the
queried rule id up to surrounding whitespace. -/
def gateIdMatches (fields : String → Option String) (gateId : String) : Bool :=
  pyTruthy (fields "customfield_10109")
  && (pyStrip ((fields "customfield_10109").getD "") == pyStrip gateId)

/-- The application-id custom field is present, non-empty, and equals the
queried application id up to surrounding whitespace. -/
def appIdMatches (fields : String → Option String) (appId : String) : Bool :=
  pyTruthy (fields "customfield_10109")
  && (pyStrip ((fields "customfield_10109").getD "") == pyStrip appId)

/-- The approval status custom field equals `DECISION MADE`
(case-insensitively). -/
def statusMatches (fields : String → Option String) : Bool :=
  pyTruthy (fields "customfield_10106")
  && (pyUpper ((fields "customfield_10106").getD "") == "DECISION MADE")

/-- The approval decision custom field equals `Approved` up to case and
surrounding whitespace. -/
def decisionMatches (fields : String → Option String) : Bool :=
  pyTruthy (fields "customfield_10110")
  && (pyLower (pyStrip ((fields "customfield_10110").getD "")) == "approved")

/-- The expiry custom field is present and parses as a calendar date not
earlier than today (a ticket expiring today is still valid). -/
def expiryValid (fields : String → Option String) (today : PyDate) : Bool :=
  pyTruthy (fields "customfield_10105")
  && (match parseDate10 ((fields "customfield_10105").getD "") with
      | none => false
      | some expiry => decide (today.toKey ≤ expiry.toKey))

/-! Part: General lemmas about the dict model -/

theorem lookupStr_map {α β : Type} (m : List (String × α)) (f : String → α → β)
    (k : String) :
    lookupStr (m.map (fun p => (p.1, f p.1 p.2))) k = (lookupStr m k).map (f k) := by
  induction m with
  | nil => rfl
  | cons p rest ih =>
    obtain ⟨k2, v⟩ := p
    by_cases h : k2 = k
    · subst h
      simp [lookupStr]
    · simp [lookupStr, h, ih]

theorem lookupStr_append {α : Type} (a b : List (String × α)) (k : String) :
    lookupStr (a ++ b) k =
      (match lookupStr a k with
       | some v => some v
       | none => lookupStr b k) := by
  induction a with
  | nil => simp [lookupStr]
  | cons p rest ih =>
    obtain ⟨k2, v⟩ := p
    by_cases h : k2 = k
    · subst h
      simp [lookupStr]
    · simp [lookupStr, h, ih]

theorem lookupStr_filter_key {α : Type} (m : List (String × α)) (p : String → Bool)
    (k : String) (hk : p k = true) :
    lookupStr (m.filter (fun q => p q.1)) k = lookupStr m k := by
  induction m with
  | nil => rfl
  | cons q rest ih =>
    obtain ⟨k2, v⟩ := q
    by_cases h : k2 = k
    · subst h
      simp [List.filter, hk, lookupStr]
    · rw [List.filter_cons]
      by_cases hp : p (k2, v).1 = true
      · simp [hp, lookupStr, h, ih]
      · simp only [hp, if_false, Bool.false_eq_true]
        rw [ih]
        simp [lookupStr, h]

theorem computeEffectiveSnyk_lookup_both (d o : List (String × Int)) (k : String)
    (dv ov : Int) (hd : lookupStr d k = some dv) (ho : lookupStr o k = some ov) :
    lookupStr (computeEffectiveSnyk d o) k = some (min dv ov) := by
  unfold computeEffectiveSnyk
  rw [lookupStr_append, lookupStr_map d (snykMergeValue o) k, hd]
  simp [snykMergeValue, ho]

theorem computeEffectiveSnyk_lookup_default_only (d o : List (String × Int))
    (k : String) (dv : Int) (hd : lookupStr d k = some dv)
    (ho : lookupStr o k = none) :
    lookupStr (computeEffectiveSnyk d o) k = some dv := by
  unfold computeEffectiveSnyk
  rw [lookupStr_append, lookupStr_map d (snykMergeValue o) k, hd]
  simp [snykMergeValue, ho]

theorem computeEffectiveSnyk_lookup_override_only (d o : List (String × Int))
    (k : String) (ov : Int) (hd : lookupStr d k = none)
    (ho : lookupStr o k = some ov) :
    lookupStr (computeEffectiveSnyk d o) k = some ov := by
  unfold computeEffectiveSnyk
  rw [lookupStr_append, lookupStr_map d (snykMergeValue o) k, hd]
  show lookupStr (o.filter (fun p => (lookupStr d p.1).isNone)) k = some ov
  rw [lookupStr_filter_key o (fun k2 => (lookupStr d k2).isNone) k (by simp [hd])]
  exact ho

theorem computeEffectiveSonar_lookup_both (d o : List (String × Rat)) (k : String)
    (dv ov : Rat) (hd : lookupStr d k = some dv) (ho : lookupStr o k = some ov) :
    lookupStr (computeEffectiveSonar d o) k = some (max dv ov) := by
  unfold computeEffectiveSonar
  rw [lookupStr_append, lookupStr_map d (sonarMergeValue o) k, hd]
  simp [sonarMergeValue, ho]

theorem computeEffectiveSonar_lookup_default_only (d o : List (String × Rat))
    (k : String) (dv : Rat) (hd : lookupStr d k = some dv)
    (ho : lookupStr o k = none) :
    lookupStr (computeEffectiveSonar d o) k = some dv := by
  unfold computeEffectiveSonar
  rw [lookupStr_append, lookupStr_map d (sonarMergeValue o) k, hd]
  simp [sonarMergeValue, ho]

theorem computeEffectiveSonar_lookup_override_only (d o : List (String × Rat))
    (k : String) (ov : Rat) (hd : lookupStr d k = none)
    (ho : lookupStr o k = some ov) :
    lookupStr (computeEffectiveSonar d o) k = some ov := by
  unfold computeEffectiveSonar
  rw [lookupStr_append, lookupStr_map d (sonarMergeValue o) k, hd]
  show lookupStr (o.filter (fun p => (lookupStr d p.1).isNone)) k = some ov
  rw [lookupStr_filter_key o (fun k2 => (lookupStr d k2).isNone) k (by simp [hd])]
  exact ho

theorem lookupStr_mem {α : Type} (m : List (String × α)) (k : String) (v : α)
    (h : lookupStr m k = some v) : (k, v) ∈ m := by
  induction m with
  | nil => simp [lookupStr] at h
  | cons p rest ih =>
    obtain ⟨k2, w⟩ := p
    by_cases hk : k2 = k
    · subst hk
      simp only [lookupStr, beq_self_eq_true, if_true, Option.some.injEq] at h
      subst h
      exact List.mem_cons_self _ _
    · have hb : (k2 == k) = false := by simp [hk]
      simp only [lookupStr, hb, Bool.false_eq_true, if_false] at h
      exact List.mem_cons_of_mem _ (ih h)

theorem lookupStr_getD_rating_range (m : List (String × Nat)) (k : String)
    (hv : ∀ p ∈ m, 1 ≤ p.2 ∧ p.2 ≤ 5) :
    1 ≤ (lookupStr m k).getD 5 ∧ (lookupStr m k).getD 5 ≤ 5 := by
  cases h : lookupStr m k with
  | none => simp
  | some v => simpa using hv (k, v) (lookupStr_mem m k v h)

theorem lookupStr_eq_none_of_not_key {α : Type} (m : List (String × α)) (k : String)
    (h : k ∉ m.map Prod.fst) : lookupStr m k = none := by
  induction m with
  | nil => rfl
  | cons p rest ih =>
    obtain ⟨k2, v⟩ := p
    simp only [List.map_cons, List.mem_cons] at h
    push_neg at h
    have hb : (k2 == k) = false := by simp [Ne.symm h.1]
    simp only [lookupStr, hb, Bool.false_eq_true, if_false]
    exact ih h.2

/-! Part: Claim theorems -/

/-- C10: for every input value, both `convert_rating` variants return an
ordinal in 1..5; the letters A–E in either case and the numerals 1–5 map
to their ordinal (A=1 best, E=5 worst); any value whose uppercase form is
not a key of the rating dict — including the `"NONE"` produced by a
missing rating — maps to the fail-safe worst grade 5. -/
theorem claim_C10_convert_rating :
    (∀ s : String, 1 ≤ convertRating s ∧ convertRating s ≤ 5) ∧
    (∀ s : String, 1 ≤ convertRatingAction s ∧ convertRatingAction s ≤ 5) ∧
    (convertRating "A" = 1 ∧ convertRating "a" = 1 ∧ convertRating "1" = 1) ∧
    (convertRating "B" = 2 ∧ convertRating "b" = 2 ∧ convertRating "2" = 2) ∧
    (convertRating "C" = 3 ∧ convertRating "c" = 3 ∧ convertRating "3" = 3) ∧
    (convertRating "D" = 4 ∧ convertRating "d" = 4 ∧ convertRating "4" = 4) ∧
    (convertRating "E" = 5 ∧ convertRating "e" = 5 ∧ convertRating "5" = 5) ∧
    (∀ s : String, pyUpper s ∉ ratingMap.map Prod.fst → convertRating s = 5) ∧
    (∀ s : String, pyUpper s ∉ ratingMapAction.map Prod.fst →
       convertRatingAction s = 5) ∧
    convertRating "NONE" = 5 ∧ convertRatingAction "NONE" = 5 ∧
    convertRatingAction "a" = 1 ∧ convertRatingAction "1.0" = 1 := by
  refine ⟨fun s => ?_, fun s => ?_, ⟨rfl, rfl, rfl⟩, ⟨rfl, rfl, rfl⟩,
    ⟨rfl, rfl, rfl⟩, ⟨rfl, rfl, rfl⟩, ⟨rfl, rfl, rfl⟩, fun s h => ?_, fun s h => ?_,
    rfl, rfl, rfl, rfl⟩
  · exact lookupStr_getD_rating_range ratingMap (pyUpper s) (by decide)
  · exact lookupStr_getD_rating_range ratingMapAction (pyUpper s) (by decide)
  · unfold convertRating
    rw [lookupStr_eq_none_of_not_key ratingMap (pyUpper s) h]
    rfl
  · unfold convertRatingAction
    rw [lookupStr_eq_none_of_not_key ratingMapAction (pyUpper s) h]
    rfl

/-- C10 witness: instantiating the unrecognized-value clause at the
concrete input `"bogus"`. -/
theorem claim_C10_witness : convertRating "bogus" = 5 := by
  obtain ⟨-, -, -, -, -, -, -, hun, -⟩ := claim_C10_convert_rating
  exact hun "bogus" (by decide)

/-- C5: `compute_effective_snyk` resolves every severity present in both
threshold sets to `min(default, override)`, which is below both inputs
(an override can only tighten); a key present on one side only is taken
as-is. -/
theorem claim_C5_snyk_threshold_merge :
    ∀ (d o : List (String × Int)) (k : String),
      (∀ dv ov : Int, lookupStr d k = some dv → lookupStr o k = some ov →
        lookupStr (computeEffectiveSnyk d o) k = some (min dv ov) ∧
        min dv ov ≤ dv ∧ min dv ov ≤ ov) ∧
      (∀ dv : Int, lookupStr d k = some dv → lookupStr o k = none →
        lookupStr (computeEffectiveSnyk d o) k = some dv) ∧
      (∀ ov : Int, lookupStr d k = none → lookupStr o k = some ov →
        lookupStr (computeEffectiveSnyk d o) k = some ov) := by
  intro d o k
  exact ⟨fun dv ov hd ho =>
      ⟨computeEffectiveSnyk_lookup_both d o k dv ov hd ho,
       min_le_left _ _, min_le_right _ _⟩,
    fun dv hd ho => computeEffectiveSnyk_lookup_default_only d o k dv hd ho,
    fun ov hd ho => computeEffectiveSnyk_lookup_override_only d o k ov hd ho⟩

/-- C5 witness: default 5 / override 2 for the critical severity merge
to the tightened effective threshold 2. -/
theorem claim_C5_witness :
    lookupStr (computeEffectiveSnyk [("critical", (5 : Int))]
        [("critical", (2 : Int))]) "critical" = some (min 5 2) ∧
    min (5 : Int) 2 ≤ 5 ∧ min (5 : Int) 2 ≤ 2 :=
  (claim_C5_snyk_threshold_merge [("critical", 5)] [("critical", 2)] "critical").1
    5 2 (by decide) (by decide)

/-- C2 counterexample: with default `security_rating` ordinal 3 (grade C)
and override ordinal 1 (grade A), `compute_effective_sonar` produces the
effective ordinal 3 — `max`, not the numerically smaller (better)
ordinal 1 the claim requires. -/
theorem claim_C2_counterexample :
    lookupStr (computeEffectiveSonar [("security_rating", (3 : Rat))]
        [("security_rating", (1 : Rat))]) "security_rating" = some 3 ∧
    (3 : Rat) ≠ 1 := by
  exact ⟨by decide, by decide⟩

/-- C2 amended: `compute_effective_sonar` applies `max(default, override)`
uniformly to every metric present in both sets — coverage as the claim
states, but also the rating metrics, whose effective ordinal is therefore
the numerically larger (worse) of the two. -/
theorem claim_C2_amended :
    (∀ (d o : List (String × Rat)) (k : String) (dv ov : Rat),
      lookupStr d k = some dv → lookupStr o k = some ov →
      lookupStr (computeEffectiveSonar d o) k = some (max dv ov)) ∧
    lookupStr (computeEffectiveSonar [("coverage", (80 : Rat))]
        [("coverage", (90 : Rat))]) "coverage" = some 90 := by
  exact ⟨fun d o k dv ov hd ho => computeEffectiveSonar_lookup_both d o k dv ov hd ho,
    by decide⟩

/-- C2 witness: the rating merge clause at default C (3) and override
A (1): the effective value is `max 3 1 = 3`. -/
theorem claim_C2_witness :
    lookupStr (computeEffectiveSonar [("sqale_rating", (3 : Rat))]
        [("sqale_rating", (1 : Rat))]) "sqale_rating" = some (max 3 1) :=
  claim_C2_amended.1 [("sqale_rating", 3)] [("sqale_rating", 1)] "sqale_rating"
    3 1 (by decide) (by decide)

/-- C1: the final decision of `gate_evaluator.py` is `FAIL` exactly when
some gate evaluation fails — but the process exit code is 0 for every
outcome, including a `FAIL` decision, because `main` ends with
`sys.exit( 0)` (its own comment promises `1 if fail, otherwise 0`).
Evaluated here at the claim's failing input: 3 critical findings against
an effective critical threshold of 0. -/
theorem claim_C1_exit_code :
    (gateEvaluatorMain ⟨3, 0, 0, 0⟩ [("critical", (0 : Int))] [] []).1 = "FAIL" ∧
    (gateEvaluatorMain ⟨3, 0, 0, 0⟩ [("critical", (0 : Int))] [] []).2 = 0 ∧
    (∀ (counts : Counts) (effSnyk : List (String × Int))
       (metrics effSonar : List (String × Rat)),
       ((gateEvaluatorMain counts effSnyk metrics effSonar).1 = "FAIL" ↔
         ((evaluateSnyk counts effSnyk).failed
           || (evaluateSonar metrics effSonar).failed) = true)) ∧
    (∀ (counts : Counts) (effSnyk : List (String × Int))
       (metrics effSonar : List (String × Rat)),
       (gateEvaluatorMain counts effSnyk metrics effSonar).2 = 0) := by
  refine ⟨by decide, rfl, fun counts effSnyk metrics effSonar => ?_,
    fun _ _ _ _ => rfl⟩
  show (if ((evaluateSnyk counts effSnyk).failed
        || (evaluateSonar metrics effSonar).failed) then "FAIL" else "PASS")
      = "FAIL" ↔ _
  cases hb : ((evaluateSnyk counts effSnyk).failed
      || (evaluateSonar metrics effSonar).failed) <;> simp [hb]

/-- C7 counterexample: the catalog marks the critical-vulnerability rule
gatr-03 as `NON_ENFORCING`, yet the evaluation of that rule (3 critical
findings over threshold 0) fails and drives the gate evaluator's final
decision to `FAIL`. -/
theorem claim_C7_counterexample :
    gateEnforcing "gatr-03" = "NON_ENFORCING" ∧
    (evaluateSnyk ⟨3, 0, 0, 0⟩ [("critical", (0 : Int))]).failed = true ∧
    (gateEvaluatorMain ⟨3, 0, 0, 0⟩ [("critical", (0 : Int))] [] []).1 = "FAIL" := by
  exact ⟨by decide, by decide, by decide⟩

/-- C7 amended: the `enforcing` flag of the catalog is rendering metadata
only: the severity rules gatr-01/02/03 are `NON_ENFORCING` and the gates
gatr-08/09/14 `ENFORCING` in `GATE_INFO`, but the gate evaluator never
consults the flag — whenever the snyk severity evaluation fails, the
final decision is `FAIL` (so a non-enforcing rule can produce the
blocking decision). -/
theorem claim_C7_amended :
    gateEnforcing "gatr-01" = "NON_ENFORCING" ∧
    gateEnforcing "gatr-02" = "NON_ENFORCING" ∧
    gateEnforcing "gatr-03" = "NON_ENFORCING" ∧
    gateEnforcing "gatr-08" = "ENFORCING" ∧
    gateEnforcing "gatr-09" = "ENFORCING" ∧
    gateEnforcing "gatr-14" = "ENFORCING" ∧
    (∀ (counts : Counts) (thr : List (String × Int)),
       ((gateEvaluatorMain counts thr [] []).1 = "FAIL" ↔
         (evaluateSnyk counts thr).failed = true)) := by
  refine ⟨rfl, rfl, rfl, rfl, rfl, rfl, fun counts thr => ?_⟩
  show (if ((evaluateSnyk counts thr).failed
        || (evaluateSonar [] []).failed) then "FAIL" else "PASS") = "FAIL" ↔ _
  cases hb : (evaluateSnyk counts thr).failed <;> simp [hb, evaluateSonar]

/-- C3 counterexample: with target environment `"production"` and source
ref `"feature/x"`, the branch-policy rule gatr-14 PASSes — the protected
set of the code is the exact pair `("UAT", "PROD")`, so `"production"` is
not protected, contradicting the claimed FAIL. -/
theorem claim_C3_counterexample :
    evaluateGatr14 "feature/x" "production" = "PASS" ∧
    ("PASS" : String) ≠ "FAIL" := by
  exact ⟨rfl, by decide⟩

/-- C3 amended: the protected environments are exactly the literal
strings `"UAT"` and `"PROD"` (case-sensitive); for those, the rule fails
exactly when the ref matches neither `^main$` nor `^release\/.*$`
(anchored full-string matches, not substring tests), and every other
environment always passes.  The claim's concrete scenarios hold with
environment `"PROD"`: `feature/x` fails and `release/2.3.0` passes. -/
theorem claim_C3_amended :
    (∀ branch env : String, env ≠ "UAT" → env ≠ "PROD" →
       evaluateGatr14 branch env = "PASS") ∧
    (∀ branch : String, evaluateGatr14 branch "PROD"
       = (if branchAllowed branch then "PASS" else "FAIL")) ∧
    (∀ branch : String, evaluateGatr14 branch "UAT"
       = (if branchAllowed branch then "PASS" else "FAIL")) ∧
    evaluateGatr14 "feature/x" "PROD" = "FAIL" ∧
    evaluateGatr14 "release/2.3.0" "PROD" = "PASS" ∧
    evaluateGatr14 "main" "PROD" = "PASS" ∧
    evaluateGatr14 "main" "UAT" = "PASS" ∧
    evaluateGatr14 "main2" "PROD" = "FAIL" ∧
    evaluateGatr14 "notmain" "PROD" = "FAIL" ∧
    evaluateGatr14 "feature/main" "PROD" = "FAIL" ∧
    evaluateGatr14 "arelease/1.0" "PROD" = "FAIL" ∧
    evaluateGatr14 "release" "PROD" = "FAIL" ∧
    evaluateGatr14 "release/" "PROD" = "PASS" := by
  refine ⟨fun branch env h1 h2 => ?_, fun branch => ?_, fun branch => ?_,
    by decide, by decide, by decide, by decide, by decide, by decide,
    by decide, by decide, by decide, by decide⟩
  · have hb : (env == "UAT" || env == "PROD") = false := by
      simp [h1, h2]
    simp [evaluateGatr14, hb]
  · simp [evaluateGatr14]
  · simp [evaluateGatr14]

/-- C3 witness: a non-protected environment (`"DEV"`) always passes, even
for a feature ref. -/
theorem claim_C3_witness : evaluateGatr14 "feature/x" "DEV" = "PASS" :=
  claim_C3_amended.1 "feature/x" "DEV" (by decide) (by decide)

/-- C9 counterexample: a finding whose severity is `"Bogus"` normalizes
to the lowercased string `"bogus"`, not to the sentinel `"unknown"` —
only a missing severity becomes `"unknown"`. -/
theorem claim_C9_counterexample :
    normalizeSnykSeverity ⟨some "Bogus", none, none⟩ = "bogus" ∧
    ("bogus" : String) ≠ "unknown" := by
  exact ⟨rfl, by decide⟩

/-- C9 amended: the normalizer lowercases whatever severity string the
issue carries (so matching is case-insensitive) and uses the sentinel
`"unknown"` only when all three severity fields are missing; any
severity whose lowercase form is outside {critical, high, medium, low}
is retained as-is and contributes to no severity counter. -/
theorem claim_C9_amended :
    (∀ (i : RawIssue) (s : String), severityChain i = some s →
       normalizeSnykSeverity i = pyLower s) ∧
    (∀ i : RawIssue, severityChain i = none →
       normalizeSnykSeverity i = "unknown") ∧
    (∀ (s : String) (rest : List String),
       pyLower s ∉ (["critical", "high", "medium", "low"] : List String) →
       countBySeverity (s :: rest) = countBySeverity rest) := by
  refine ⟨fun i s h => ?_, fun i h => ?_, fun s rest h => ?_⟩
  · simp [normalizeSnykSeverity, h]
  · simp [normalizeSnykSeverity, h]
  · simp only [List.mem_cons, List.not_mem_nil, or_false, not_or] at h
    obtain ⟨h1, h2, h3, h4⟩ := h
    show (if s.data.isEmpty then countBySeverity rest
          else bumpCount (countBySeverity rest) (pyLower s)) = countBySeverity rest
    have hc : bumpCount (countBySeverity rest) (pyLower s) = countBySeverity rest := by
      unfold bumpCount
      simp [h1, h2, h3, h4]
    cases s.data.isEmpty <;> simp [hc]

/-- C9 witness: an upper-case `"CRITICAL"` severity is matched
case-insensitively (normalizes to `"critical"`), and a `"weird"`
severity leaves every counter untouched. -/
theorem claim_C9_witness :
    normalizeSnykSeverity ⟨some "CRITICAL", none, none⟩ = "critical" ∧
    countBySeverity ["weird", "critical"] = countBySeverity ["critical"] := by
  constructor
  · have h := claim_C9_amended.1 ⟨some "CRITICAL", none, none⟩ "CRITICAL" (by decide)
    rw [h]
    rfl
  · exact claim_C9_amended.2.2 "weird" ["critical"] (by decide)

theorem countGet_critical (c : Counts) : countGet c "critical" = c.critical := rfl

theorem countGet_high (c : Counts) : countGet c "high" = c.high := rfl

theorem countGet_medium (c : Counts) : countGet c "medium" = c.medium := rfl

theorem countGet_low (c : Counts) : countGet c "low" = c.low := rfl

theorem evaluateSnyk_failed_iff (counts : Counts) (thr : List (String × Int)) :
    (evaluateSnyk counts thr).failed = true ↔
      ∃ sev ∈ (["critical", "high", "medium", "low"] : List String),
        ((countGet counts sev : Int) > (lookupStr thr sev).getD 0) := by
  simp only [evaluateSnyk, snykStep, Bool.or_eq_true, Bool.not_eq_true',
    decide_eq_false_iff_not, not_le, Bool.or_false, List.mem_cons,
    List.not_mem_nil, or_false, exists_eq_or_imp, exists_eq_left, gt_iff_lt]

theorem gateResults_eq_failed (counts : Counts) (thr : List (String × Int)) :
    gateResults counts thr = (evaluateSnyk counts thr).failed := by
  have hiff : gateResults counts thr = true ↔
      (evaluateSnyk counts thr).failed = true := by
    rw [evaluateSnyk_failed_iff]
    simp only [gateResults, Bool.or_eq_true, decide_eq_true_eq, List.mem_cons,
      List.not_mem_nil, or_false, exists_eq_or_imp, exists_eq_left, gt_iff_lt,
      countGet_critical, countGet_high, countGet_medium, countGet_low]
    tauto
  cases h : (evaluateSnyk counts thr).failed
  · rw [h] at hiff
    cases hg : gateResults counts thr
    · rfl
    · exact absurd (hiff.mp hg) (by simp)
  · rw [h] at hiff
    exact hiff.mpr rfl

/-- C8: the severity rule fails exactly when some severity's finding
count exceeds its effective threshold (`count(severity) >
threshold[severity]`), a severity key absent from the effective set being
read as the hard-coded default 0; the action-variant `gate_results`
computes the identical failure verdict. -/
theorem claim_C8_severity_rule :
    (∀ (counts : Counts) (thr : List (String × Int)),
       ((evaluateSnyk counts thr).failed = true ↔
         ∃ sev ∈ (["critical", "high", "medium", "low"] : List String),
           ((countGet counts sev : Int) > (lookupStr thr sev).getD 0))) ∧
    (∀ (counts : Counts) (thr : List (String × Int)),
       gateResults counts thr = (evaluateSnyk counts thr).failed) ∧
    (∀ counts : Counts,
       ((evaluateSnyk counts []).failed = true ↔
         ∃ sev ∈ (["critical", "high", "medium", "low"] : List String),
           ((countGet counts sev : Int) > 0))) := by
  refine ⟨evaluateSnyk_failed_iff, gateResults_eq_failed, fun counts => ?_⟩
  rw [evaluateSnyk_failed_iff]
  simp [lookupStr]

theorem evaluateSonar_failed_iff (metrics thr : List (String × Rat)) :
    (evaluateSonar metrics thr).failed = true ↔
      ∃ p ∈ thr, ∃ v, lookupStr metrics p.1 = some v ∧ sonarOk p.1 v p.2 = false := by
  induction thr with
  | nil => simp [evaluateSonar]
  | cons p rest ih =>
    obtain ⟨metric, allowed⟩ := p
    cases h : lookupStr metrics metric with
    | none =>
      simp [evaluateSonar, h, List.exists_mem_cons_iff, ih]
    | some v =>
      simp only [evaluateSonar, h, List.exists_mem_cons_iff, ih, Bool.or_eq_true,
        Bool.not_eq_true', Option.some.injEq]
      constructor
      · rintro (hf | hf)
        · exact Or.inl ⟨v, rfl, hf⟩
        · exact Or.inr hf
      · rintro (⟨v2, rfl, hf⟩ | hf)
        · exact Or.inl hf
        · exact Or.inr hf

/-- C6 amended: in `gate_evaluator.py`'s `evaluate_sonar` a metric
missing from the quality report is skipped — the composite verdict fails
exactly when some metric *present* in the report violates its comparator,
an empty report can never fail, and dropping a threshold whose metric is
unreported leaves the verdict unchanged.  (The sonar action variant does
not share this property; see the counterexample.) -/
theorem claim_C6_amended :
    (∀ (metrics thr : List (String × Rat)),
       ((evaluateSonar metrics thr).failed = true ↔
         ∃ p ∈ thr, ∃ v, lookupStr metrics p.1 = some v ∧
           sonarOk p.1 v p.2 = false)) ∧
    (∀ thr : List (String × Rat), (evaluateSonar [] thr).failed = false) ∧
    (∀ (metrics thr : List (String × Rat)) (metric : String) (allowed : Rat),
       lookupStr metrics metric = none →
       (evaluateSonar metrics ((metric, allowed) :: thr)).failed
         = (evaluateSonar metrics thr).failed) := by
  refine ⟨evaluateSonar_failed_iff, fun thr => ?_,
    fun metrics thr metric allowed h => ?_⟩
  · cases hf : (evaluateSonar [] thr).failed
    · rfl
    · obtain ⟨p, -, v, hv, -⟩ := (evaluateSonar_failed_iff [] thr).mp hf
      simp [lookupStr] at hv
  · simp [evaluateSonar, h]

/-- C6 witness: a `coverage` threshold whose metric is missing from the
report is skipped — removing it does not change the verdict. -/
theorem claim_C6_witness :
    (evaluateSonar [("bugs", (0 : Rat))]
        [("coverage", (80 : Rat)), ("bugs", (0 : Rat))]).failed
      = (evaluateSonar [("bugs", (0 : Rat))] [("bugs", (0 : Rat))]).failed :=
  claim_C6_amended.2.2 [("bugs", 0)] [("bugs", 0)] "coverage" 80 (by decide)

/-- C6 counterexample: in the sonar action variant a missing `coverage`
measure is extracted as the string `"0"`, compared as the number 0
against the minimum-coverage threshold (here 80), and the script FAILs
with exit code 2 — the comparison is not skipped and the outcome is a
blocking failure, not a WARN. -/
theorem claim_C6_counterexample :
    extractMetric [] "coverage" = "0" ∧
    compareMetrics (buildMetrics []) [("coverage", JVal.jnum 80)] "OK" = 2 ∧
    (2 : Nat) ≠ 0 := by
  exact ⟨rfl, by decide, by decide⟩

/-- Helper for the exception-broker equivalence: a guard step of the
validation chain returns `PASS_WITH_EXCEPTION` exactly when the guard
condition is false and the continuation does. -/
theorem guard_fail_pass (c : Bool) (x : String) :
    ((if c = true then "FAIL" else x) = "PASS_WITH_EXCEPTION") ↔
      (c = false ∧ x = "PASS_WITH_EXCEPTION") := by
  cases c <;> simp

/-- C4: the exception broker's ticket validation returns
`PASS_WITH_EXCEPTION` exactly when all its predicates hold
simultaneously — project key is `GATES`, the gate-id and application-id
custom field matches the queried rule and application ids, the approval
status is `DECISION MADE`, the approval decision is `Approved`, and the
expiry field parses as a calendar date `>= today` (inclusive: a ticket
expiring today is valid); any single mismatch or missing/malformed date
produces the rejection status `FAIL`, never an error. -/
theorem claim_C4_exception_broker :
    ∀ (projectKey : Option String) (fields : String → Option String)
      (gateId appId : String) (today : PyDate),
      ((evaluateJiraException projectKey fields gateId appId today
          = "PASS_WITH_EXCEPTION") ↔
        (projMatches projectKey = true ∧ gateIdMatches fields gateId = true ∧
         appIdMatches fields appId = true ∧ statusMatches fields = true ∧
         decisionMatches fields = true ∧ expiryValid fields today = true)) ∧
      (evaluateJiraException projectKey fields gateId appId today
          = "PASS_WITH_EXCEPTION" ∨
       evaluateJiraException projectKey fields gateId appId today = "FAIL") := by
  intro projectKey fields gateId appId today
  constructor
  · unfold evaluateJiraException projMatches gateIdMatches appIdMatches
      statusMatches decisionMatches expiryValid
    rw [guard_fail_pass, guard_fail_pass, guard_fail_pass, guard_fail_pass,
      guard_fail_pass, guard_fail_pass]
    cases hp : parseDate10 ((fields "customfield_10105").getD "") with
    | none =>
      simp [hp]
    | some expiry =>
      simp only [hp, Bool.or_eq_false_iff, Bool.not_eq_false', Bool.and_eq_true,
        Bool.not_eq_eq_eq_not, Bool.not_true, decide_eq_true_eq]
      constructor
      · rintro ⟨⟨h1a, h1b⟩, ⟨h2a, h2b⟩, ⟨h3a, h3b⟩, ⟨h4a, h4b⟩, ⟨h5a, h5b⟩, h6, h7⟩
        refine ⟨⟨h1a, h1b⟩, ⟨h2a, h2b⟩, ⟨h3a, h3b⟩, ⟨h4a, h4b⟩, ⟨h5a, h5b⟩, h6, ?_⟩
        split at h7
        · exact absurd h7 (by decide)
        · omega
      · rintro ⟨⟨h1a, h1b⟩, ⟨h2a, h2b⟩, ⟨h3a, h3b⟩, ⟨h4a, h4b⟩, ⟨h5a, h5b⟩, h6, h7⟩
        refine ⟨⟨h1a, h1b⟩, ⟨h2a, h2b⟩, ⟨h3a, h3b⟩, ⟨h4a, h4b⟩, ⟨h5a, h5b⟩, h6, ?_⟩
        split
        · omega
        · rfl
  · unfold evaluateJiraException
    split
    · exact Or.inr rfl
    · split
      · exact Or.inr rfl
      · split
        · exact Or.inr rfl
        · split
          · exact Or.inr rfl
          · split
            · exact Or.inr rfl
            · split
              · exact Or.inr rfl
              · split
                · exact Or.inr rfl
                · split
                  · exact Or.inr rfl
                  · exact Or.inl rfl

end Gating
